import Mathlib

/-!
Verification development for the plugin resolution and phase-execution engine
of atomic-reactor (`atomic_reactor/plugin.py`).

The Python source is shallowly embedded: each Python function of the engine
becomes a Lean definition of the same name, the mutable loop variables of
`PluginsRunner.run` become an explicit `LoopState` threaded through a step
function, raised exceptions become an `Exn` value carried in `Except`, and
Python's insertion-ordered dicts become association lists.  Plugins themselves
are opaque collaborators: a plugin is represented by its registry key, its
class-level `is_allowed_to_fail` default, its `is_autousable` declaration and
the outcome of instantiating-and-running it (`behavior`).
-/

namespace AtomicReactor

/-- Python values, as far as the engine inspects them: the engine only
recurses through dicts and lists and compares scalars for equality. -/
inductive Value where
  | vnone : Value
  | vbool (b : Bool) : Value
  | vint (n : Int) : Value
  | vstr (s : String) : Value
  | vlist (xs : List Value) : Value
  | vdict (xs : List (String × Value)) : Value

instance : Inhabited Value := ⟨Value.vnone⟩

/-- Python truthiness, restricted to the `Value` shapes above. -/
def Value.truthy : Value → Bool
  | .vnone => false
  | .vbool b => b
  | .vint n => n != 0
  | .vstr s => s != ""
  | .vlist xs => !xs.isEmpty
  | .vdict xs => !xs.isEmpty

/-- `atomic_reactor.build.BuildResult`, reduced to the two members the engine
reads: `is_failed()` and `fail_reason`. -/
structure BuildResult where
  failed : Bool
  fail_reason : String
deriving Repr, DecidableEq

/-- A value returned by `plugin.run()`: either an arbitrary value or, for
build-step plugins, a `BuildResult`. -/
inductive Resp where
  | value (v : Value) : Resp
  | buildResult (br : BuildResult) : Resp

/-- The exceptions the engine distinguishes.  `assertionError` models the
`assert isinstance(plugin_response, BuildResult)` failing inside `run`. -/
inductive Exn where
  | autoRebuildCanceled (plugin_key msg : String) : Exn
  | buildCanceled (msg : String) : Exn
  | inappropriateBuildStep : Exn
  | pluginFailed (msg : String) : Exn
  | assertionError : Exn
  | other (msg : String) : Exn
deriving Repr, DecidableEq

/-- Modelled from the spec: `str(exception)`.  The helpers rendering an
exception live in `atomic_reactor/util.py`, which is not under `src/`; the
engine only embeds rendered messages, so the exact strings are uninterpreted
apart from `AutoRebuildCanceledException.__str__`, which is in the source. -/
def Exn.str : Exn → String
  | .autoRebuildCanceled k m => "plugin " ++ k ++ " canceled autorebuild: " ++ m
  | .buildCanceled m => m
  | .inappropriateBuildStep => ""
  | .pluginFailed m => m
  | .assertionError => ""
  | .other m => m

/-- Modelled from the spec: `util.exception_message` (not under `src/`)
produces the message text of a raised error; no claim depends on its exact
rendering, only on the same rendering being used on both sides. -/
def exception_message (e : Exn) : String := Exn.str e

/-- Classification helper: the two exception types with their own
`except` clauses in `PluginsRunner.run`. -/
def Exn.isCancel : Exn → Bool
  | .autoRebuildCanceled _ _ => true
  | _ => false

/-- True exactly for `InappropriateBuildStepError`. -/
def Exn.isInappropriate : Exn → Bool
  | .inappropriateBuildStep => true
  | _ => false

/-- A registered plugin class: its unique `key`, the class-level
`is_allowed_to_fail` default (`True` on `Plugin`), the Input-phase
`is_autousable` declaration, and the outcome of instantiating and running it
(the engine treats plugins as opaque implementations of `run()`). -/
structure PluginClass where
  key : String
  is_allowed_to_fail : Bool := true
  is_autousable : Bool := false
  behavior : Except Exn Resp

/-- One entry of the `plugins_conf` list handed to a runner:
`{name, args, required, is_allowed_to_fail}`; `none` models an absent dict
key, whose defaults are applied at lookup time via `.get`. -/
structure PluginRequest where
  name : String
  args : List (String × Value) := []
  required : Option Bool := none
  is_allowed_to_fail : Option Bool := none

instance : Inhabited PluginRequest := ⟨{ name := "" }⟩

/-- The `PluginData` namedtuple produced by
`PluginsRunner.get_available_plugins`. -/
structure PluginData where
  name : String
  plugin_class : PluginClass
  conf : List (String × Value) := []
  is_allowed_to_fail : Bool

/-- The message of the `PluginFailedException` raised for an unresolvable
required plugin. -/
def noSuchMsg (name : String) : String :=
  "no such plugin: '" ++ name ++ "', did you set the correct plugin type?"

/-- `PluginsRunner.get_available_plugins`: resolve each request in order
against the registry (`self.plugin_classes`).  A missing name with
`required` true (the default) raises `PluginFailedException` immediately —
the error also carries the plugin name for the `on_plugin_failed` callback
the source invokes just before raising; a missing name with `required` false
is skipped. -/
def get_available_plugins (registry : List (String × PluginClass)) :
    List PluginRequest → Except (String × Exn) (List PluginData)
  | [] => .ok []
  | req :: rest =>
    match registry.lookup req.name with
    | none =>
      if req.required.getD true then
        .error (req.name, .pluginFailed (noSuchMsg req.name))
      else
        get_available_plugins registry rest
    | some cls =>
      match get_available_plugins registry rest with
      | .error e => .error e
      | .ok tail =>
        .ok ({ name := req.name
               plugin_class := cls
               conf := req.args
               is_allowed_to_fail := req.is_allowed_to_fail.getD cls.is_allowed_to_fail } :: tail)

/-! ## Argument preparation: special-value substitution -/

/-- The live build-context values of `_translate_special_values`:
`workflow.builder.image_id`, `…source.dockerfile_path`, `…source.path` are
arbitrary attribute values; `base_image` is an `ImageName` rendered with
`to_str()`, absent when no base image is known. -/
structure BuilderCtx where
  image_id : Value
  dockerfile_path : Value
  source_path : Value
  base_image : Option String

/-- The `translation_dict` built by `_translate_special_values`; the
`BASE_IMAGE` entry is added only when `workflow.builder.base_image` is set. -/
def translation_dict (ctx : BuilderCtx) : List (String × Value) :=
  [("BUILT_IMAGE_ID", ctx.image_id),
   ("BUILD_DOCKERFILE_PATH", ctx.dockerfile_path),
   ("BUILD_SOURCE_PATH", ctx.source_path)] ++
  (match ctx.base_image with
   | some b => [("BASE_IMAGE", Value.vstr b)]
   | none => [])

mutual

/-- `BuildPluginsRunner._translate_special_values`: recurse key-wise through
dicts and element-wise through lists; a scalar is looked up in
`translation_dict` (only string scalars can match its string keys) and is
returned unchanged when absent.  The Python walk deep-copies before
rewriting, never mutating the caller's object; the pure embedding renders
exactly that copy-on-write behaviour. -/
def translate_special_values (ctx : BuilderCtx) : Value → Value
  | .vdict es => .vdict (translateEntries ctx es)
  | .vlist xs => .vlist (translateList ctx xs)
  | .vstr s => ((translation_dict ctx).lookup s).getD (.vstr s)
  | v => v

/-- Element-wise walk of a list value. -/
def translateList (ctx : BuilderCtx) : List Value → List Value
  | [] => []
  | x :: xs => translate_special_values ctx x :: translateList ctx xs

/-- Key-wise walk of a dict value: keys kept, values rewritten. -/
def translateEntries (ctx : BuilderCtx) : List (String × Value) → List (String × Value)
  | [] => []
  | (k, v) :: es => (k, translate_special_values ctx v) :: translateEntries ctx es

end

/-! ## The phase executor: `PluginsRunner.run` -/

/-- A recorded entry of a phase result map: either the plugin's response or
(line 311: `plugin_response = ex`) the captured exception. -/
inductive RecResult where
  | resp (r : Resp) : RecResult
  | exn (e : Exn) : RecResult

/-- Truthiness of a recorded entry (exception objects and `BuildResult`
instances are truthy; plain values follow `Value.truthy`). -/
def RecResult.truthy : RecResult → Bool
  | .resp (.value v) => v.truthy
  | .resp (.buildResult _) => true
  | .exn _ => true

/-- Truthiness of the `plugin_response` local (`None` is falsy). -/
def respOptTruthy : Option RecResult → Bool
  | none => false
  | some r => r.truthy

/-- Python dict assignment `m[k] = v` on an insertion-ordered dict. -/
def updateAssoc {α : Type} (m : List (String × α)) (k : String) (v : α) :
    List (String × α) :=
  if m.any (fun p => p.1 == k) then
    m.map (fun p => if p.1 == k then (k, v) else p)
  else m ++ [(k, v)]

/-- `dict.pop(k)`: the removed value and the remaining dict, `none` on a
missing key (`KeyError`). -/
def popAssoc {α : Type} : List (String × α) → String → Option (α × List (String × α))
  | [], _ => none
  | (k', v) :: rest, k =>
    if k' == k then some (v, rest)
    else
      match popAssoc rest k with
      | none => none
      | some (v', rest') => some (v', (k', v) :: rest')

/-- The mutable state of one `PluginsRunner.run` invocation: the local
variables of the loop (`failed_msgs`, `plugin_successful`,
`plugin_response`), the shared result sink `plugins_results`, and the
workflow side effects of `BuildPluginsRunner` (`on_plugin_failed` sets
`workflow.plugin_failed` and `workflow.plugins_errors`).  `executed` is
instrumentation: the keys of the plugins whose loop body was entered
(instantiated), in order; `failed_calls` records each `on_plugin_failed`
invocation with its rendered argument. -/
structure LoopState where
  failed_msgs : List String := []
  plugin_successful : Bool := false
  plugin_response : Option RecResult := none
  results : List (String × RecResult) := []
  executed : List String := []
  failed_calls : List (String × String) := []
  wf_plugin_failed : Bool := false
  wf_errors : List (String × String) := []

/-- The state at the start of a `run` invocation. -/
def LoopState.init : LoopState := {}

/-- `BuildPluginsRunner.on_plugin_failed`: always sets
`workflow.plugin_failed`; records the stringified error only when both
arguments are truthy (`exnTruthy` is the truthiness of the second argument:
exception objects are always truthy, a `fail_reason` string only when
non-empty). -/
def on_plugin_failed (s : LoopState) (plugin msg : String) (exnTruthy : Bool) :
    LoopState :=
  { s with wf_plugin_failed := true
           failed_calls := s.failed_calls ++ [(plugin, msg)]
           wf_errors :=
             if plugin != "" && exnTruthy then updateAssoc s.wf_errors plugin msg
             else s.wf_errors }

/-- `plugin_successful`/`plugin_response` assignment after `run()` returns
or its exception is captured. -/
def markResp (s : LoopState) (succ : Bool) (r : RecResult) : LoopState :=
  { s with plugin_successful := succ, plugin_response := some r }

/-- `self.plugins_results[plugin.plugin_class.key] = plugin_response`. -/
def recordResult (s : LoopState) (key : String) (r : RecResult) : LoopState :=
  { s with results := updateAssoc s.results key r }

/-- Continuation after one loop iteration: continue with the next plugin,
`break` out of the loop, or propagate an exception out of `run` (the state
persists in the workflow in every case). -/
inductive StepResult where
  | cont (s : LoopState) : StepResult
  | brk (s : LoopState) : StepResult
  | abort (s : LoopState) (e : Exn) : StepResult

/-- The message built at line 296 for the generic `except Exception` clause. -/
def failMsgFor (key : String) (e : Exn) : String :=
  "plugin '" ++ key ++ "' raised an exception: " ++ exception_message e

/-- The generic `except Exception` clause (lines 295-311): invoke the failure
callback for a not-allowed-to-fail plugin, then either record the error and
continue (allowed to fail, or `keep_going`), accumulating the message when
the failure was forbidden, or raise `PluginFailedException` immediately.
`succ` is the current value of `plugin_successful` (still `True` when the
exception was the build-step `assert`, raised after line 269).  The second
component tells whether the duration block (lines 313-321) is reached. -/
def genericFail (bs kg : Bool) (p : PluginData) (succ : Bool) (e : Exn)
    (s : LoopState) : StepResult × Option String :=
  let key := p.plugin_class.key
  let msg := failMsgFor key e
  let s1 := if p.is_allowed_to_fail then s else on_plugin_failed s key e.str true
  if p.is_allowed_to_fail || kg then
    let s2 := if p.is_allowed_to_fail then s1
              else { s1 with failed_msgs := s1.failed_msgs ++ [msg] }
    let s3 := recordResult (markResp s2 succ (.exn e)) key (.exn e)
    if succ && bs then (.brk s3, some key) else (.cont s3, some key)
  else
    (.abort s1 (.pluginFailed msg), none)

/-- The per-iteration resets at the top of the loop body (lines 257-262):
`plugin_successful = False`, `plugin_response = None`, and the
instrumented record of the plugin being instantiated. -/
def stepInit (p : PluginData) (s0 : LoopState) : LoopState :=
  { s0 with plugin_successful := false, plugin_response := none,
            executed := s0.executed ++ [p.plugin_class.key] }

/-- One iteration of the `for plugin in available_plugins` loop of
`PluginsRunner.run` (lines 256-329), dispatching on the captured outcome of
`create_instance_from_plugin` plus `plugin_instance.run()`.  Returns the
continuation and, as the second component, `some key` exactly when the
iteration reaches the duration-recording block (lines 313-321) — a `break`
before it (line 280), or any re-raise, skips it. -/
def runStep (bs kg : Bool) (p : PluginData) (s0 : LoopState) :
    StepResult × Option String :=
  let key := p.plugin_class.key
  let s := stepInit p s0
  match p.plugin_class.behavior with
  | .ok r =>
    if bs then
      match r with
      | .buildResult br =>
        if br.failed then
          (.brk (recordResult
                  (markResp (on_plugin_failed s key br.fail_reason (br.fail_reason != ""))
                    false (.resp r))
                  key (.resp r)),
           none)
        else
          (.brk (recordResult (markResp s true (.resp r)) key (.resp r)), some key)
      | .value _ => genericFail bs kg p true .assertionError s
    else
      (.cont (recordResult (markResp s true (.resp r)) key (.resp r)), some key)
  | .error (.autoRebuildCanceled k m) => (.abort s (.autoRebuildCanceled k m), none)
  | .error .inappropriateBuildStep =>
    if bs then (.cont s, some key) else (.abort s .inappropriateBuildStep, none)
  | .error (.buildCanceled m) => genericFail bs kg p false (.buildCanceled m) s
  | .error (.pluginFailed m) => genericFail bs kg p false (.pluginFailed m) s
  | .error .assertionError => genericFail bs kg p false .assertionError s
  | .error (.other m) => genericFail bs kg p false (.other m) s

/-- `save_plugin_duration` guarded by its `try/except` (lines 313-321): the
duration entry is recorded only when the attempt is reached and the save
itself does not raise (`durOk`). -/
def durRec (durOk : String → Bool) : Option String → List String
  | none => []
  | some k => if durOk k then [k] else []

/-- The full loop: thread the state through `runStep`, collecting the keys
whose duration was recorded (`workflow.plugins_durations`) and the
propagated exception, if any. -/
def runLoop (bs kg : Bool) (durOk : String → Bool) :
    List PluginData → LoopState → LoopState × List String × Option Exn
  | [], s => (s, [], none)
  | p :: ps, s =>
    match runStep bs kg p s with
    | (.cont s', d) =>
      match runLoop bs kg durOk ps s' with
      | (t, ds, e) => (t, durRec durOk d ++ ds, e)
    | (.brk s', d) => (s', durRec durOk d, none)
    | (.abort s' e, d) => (s', durRec durOk d, some e)

/-- Python `str` of a list of strings (`repr` quotes with `'` unless the
string itself contains one), as used at line 336. -/
def pyReprStr (s : String) : String :=
  if s.contains '\'' && !(s.contains '"') then "\"" ++ s ++ "\""
  else "'" ++ s ++ "'"

/-- Rendering of `str(failed_msgs)`. -/
def pyStrList (xs : List String) : String :=
  "[" ++ String.intercalate ", " (xs.map pyReprStr) ++ "]"

/-- The code after the loop (lines 331-343): raise the accumulated fatal
error (single message, or a combined listing), then the build-step
"no appropriate build step" check, otherwise return the result map. -/
def finishRun (bs : Bool) (s : LoopState) :
    LoopState × Except Exn (List (String × RecResult)) :=
  if s.failed_msgs.length == 1 then
    (s, .error (.pluginFailed (s.failed_msgs.headD "")))
  else if 1 < s.failed_msgs.length then
    (s, .error (.pluginFailed ("Multiple plugins raised an exception: " ++
                               pyStrList s.failed_msgs)))
  else if !s.plugin_successful && bs && !(respOptTruthy s.plugin_response) then
    (on_plugin_failed s "BuildStepPlugin" "No appropriate build step" true,
     .error (.pluginFailed "No appropriate build step"))
  else
    (s, .ok s.results)

/-- The observable outcome of one `run` invocation: the returned map or
raised exception, plus the workflow state it left behind. -/
structure RunReport where
  result : Except Exn (List (String × RecResult))
  results : List (String × RecResult)
  executed : List String
  failed_calls : List (String × String)
  wf_plugin_failed : Bool
  wf_errors : List (String × String)
  durations : List String

/-- Package a final state into a report. -/
def mkReport (s : LoopState) (ds : List String)
    (r : Except Exn (List (String × RecResult))) : RunReport :=
  { result := r, results := s.results, executed := s.executed,
    failed_calls := s.failed_calls, wf_plugin_failed := s.wf_plugin_failed,
    wf_errors := s.wf_errors, durations := ds }

/-- `PluginsRunner.run(keep_going, buildstep_phase)` over an already
resolved plugin list (`self.available_plugins`). -/
def PluginsRunner.run (bs kg : Bool) (durOk : String → Bool)
    (plugins : List PluginData) : RunReport :=
  match runLoop bs kg durOk plugins LoopState.init with
  | (s, ds, some e) => mkReport s ds (.error e)
  | (s, ds, none) =>
    match finishRun bs s with
    | (s', r) => mkReport s' ds r

/-- Construction plus execution of a generic runner: `__init__` resolves the
requests (raising out of the constructor, with the `on_plugin_failed`
callback fired for the missing name, before any plugin can run), then `run`
executes the resolved list. -/
def runner_run (registry : List (String × PluginClass)) (conf : List PluginRequest)
    (bs kg : Bool) (durOk : String → Bool) : RunReport :=
  match get_available_plugins registry conf with
  | .error (name, e) =>
    mkReport (on_plugin_failed LoopState.init name e.str true) [] (.error e)
  | .ok ps => PluginsRunner.run bs kg durOk ps

/-! ## Phase wrappers: BuildStep and Input -/

/-- Python `a or b` on an optional/empty string (`source_method or
system_method`). -/
def pyOr (a : Option String) (b : String) : String :=
  match a with
  | some s => if s == "" then b else s
  | none => b

/-- The configuration rewriting of `BuildStepPluginsRunner.__init__`
(lines 455-465): with a non-empty configuration, every entry's dict is
updated in place with `required = False` and `is_allowed_to_fail = False`;
with an empty one, a single request for the source-declared build method
(falling back to the workflow default) is synthesized with
`is_allowed_to_fail = False` — and no `required` key.  The returned list is
what both the runner and (for the non-empty case, whose dicts are shared)
the caller subsequently observe. -/
def BuildStepPluginsRunner.init_conf (source_method : Option String)
    (system_method : String) (plugin_conf : List PluginRequest) :
    List PluginRequest :=
  if plugin_conf.isEmpty then
    [{ name := pyOr source_method system_method
       args := []
       required := none
       is_allowed_to_fail := some false }]
  else
    plugin_conf.map (fun p =>
      { p with required := some false, is_allowed_to_fail := some false })

/-- `BuildStepPluginsRunner.run` over the already resolved list: the parent
`run` with `buildstep_phase=True`, then `list(plugins_results.values())[0]` —
the first entry of the single-phase result map (an empty map would be an
`IndexError`).  The dockerfile logging and `ensure_not_built` precondition
touch only collaborators outside the engine and are not modelled. -/
def BuildStepPluginsRunner.run_resolved (kg : Bool) (durOk : String → Bool)
    (plugins : List PluginData) : Except Exn RecResult × RunReport :=
  let rep := PluginsRunner.run true kg durOk plugins
  match rep.result with
  | .error e => (.error e, rep)
  | .ok results =>
    match results.head? with
    | some kv => (.ok kv.2, rep)
    | none => (.error (.other "IndexError"), rep)

/-- Truthiness of the `autousable` local of `InputPluginsRunner.__init__`
(`None` and the empty string are falsy). -/
def optStrTruthy : Option String → Bool
  | none => false
  | some s => s != ""

/-- The error message raised when a second autousable plugin is found. -/
def multiAutoMsg (first second : String) : String :=
  "More than one usable plugin with \"auto\" input: " ++ first ++ ", " ++
    second ++ ". Please specify --input explicitly."

/-- The scan of `plugin_classes.items()` in `InputPluginsRunner.__init__`
(lines 593-601): remember the first autousable key, raise on a second. -/
def find_autousable : List (String × PluginClass) → Option String →
    Except Exn (Option String)
  | [], acc => .ok acc
  | (clsname, cls) :: rest, acc =>
    if cls.is_autousable then
      if optStrTruthy acc then
        .error (.pluginFailed (multiAutoMsg (acc.getD "") clsname))
      else find_autousable rest (some clsname)
    else find_autousable rest acc

/-- `InputPluginsRunner.__init__` up to the parent constructor call: detect
`"auto"` in the first request (an empty configuration is an `IndexError`),
run the autousable scan, and overwrite the first request's `name` in place
with the chosen key.  Returns the configuration the parent resolves (and the
caller now observes) together with the `autoinput` flag. -/
def InputPluginsRunner.init_conf (registry : List (String × PluginClass))
    (conf : List PluginRequest) : Except Exn (List PluginRequest × Bool) :=
  match conf with
  | [] => .error (.other "IndexError")
  | req :: rest =>
    if req.name == "auto" then
      match find_autousable registry none with
      | .error e => .error e
      | .ok acc =>
        if optStrTruthy acc then
          .ok ({ req with name := acc.getD "" } :: rest, true)
        else
          .error (.pluginFailed
            "No autousable input plugin. Please specify --input explicitly")
    else .ok (req :: rest, false)

/-- The whole Input phase: `InputPluginsRunner.__init__` (auto detection plus
resolution — both raise before any plugin runs) followed by
`InputPluginsRunner.run`, which renames the chosen plugin's entry to the
literal key `"auto"` (`result['auto'] = result.pop(autousable)`).  The second
component is the instrumented list of executed plugin keys. -/
def input_phase_run (registry : List (String × PluginClass))
    (conf : List PluginRequest) (kg : Bool) (durOk : String → Bool) :
    Except Exn (List (String × RecResult)) × List String :=
  match InputPluginsRunner.init_conf registry conf with
  | .error e => (.error e, [])
  | .ok (conf', autoinput) =>
    match get_available_plugins registry conf' with
    | .error ne => (.error ne.2, [])
    | .ok ps =>
      let rep := PluginsRunner.run false kg durOk ps
      match rep.result with
      | .error e => (.error e, rep.executed)
      | .ok results =>
        if autoinput then
          match popAssoc results ((conf'.headD default).name) with
          | some (v, rest) => (.ok (updateAssoc rest "auto" v), rep.executed)
          | none => (.error (.other "KeyError"), rep.executed)
        else (.ok results, rep.executed)

/-! ## Derived notions used by the statements -/

/-- A plugin whose outcome is handled by the generic `except Exception`
clause or by the success path: it neither cancels the auto-rebuild nor
declares build-step inapplicability. -/
def isGenericB (p : PluginData) : Bool :=
  match p.plugin_class.behavior with
  | .ok _ => true
  | .error e => !e.isCancel && !e.isInappropriate

/-- The expected accumulator of forbidden-but-continued failures: the
messages, in list order, of every plugin that raises a generically handled
exception while not being allowed to fail. -/
def forbiddenOf (ps : List PluginData) : List String :=
  ps.filterMap (fun p =>
    match p.plugin_class.behavior with
    | .ok _ => none
    | .error e =>
      if !e.isCancel && !e.isInappropriate && !p.is_allowed_to_fail then
        some (failMsgFor p.plugin_class.key e)
      else none)

/-- The placeholder tokens recognized by special-value substitution in a
given build context (`BASE_IMAGE` only when a base image is known). -/
def specialTokens (ctx : BuilderCtx) : List String :=
  ["BUILT_IMAGE_ID", "BUILD_DOCKERFILE_PATH", "BUILD_SOURCE_PATH"] ++
    (match ctx.base_image with
     | some _ => ["BASE_IMAGE"]
     | none => [])

/-- Fixture: a resolved plugin with the given key, behavior and
allowed-to-fail flag, used by concrete counterexamples and witnesses. -/
def mkPlugin (k : String) (b : Except Exn Resp) (af : Bool) : PluginData :=
  { name := k, plugin_class := { key := k, behavior := b },
    is_allowed_to_fail := af }

/-- Fixture: a build context with known live values. -/
def sampleCtx : BuilderCtx :=
  { image_id := .vstr "img123", dockerfile_path := .vstr "/bld/Dockerfile",
    source_path := .vstr "/bld", base_image := some "base:1" }

/-- Fixture: a registered plugin class that runs successfully. -/
def sampleOk : PluginClass := { key := "good", behavior := .ok (.value (.vstr "ok")) }

/-- Fixture: an autousable Input plugin class. -/
def autousableClass : PluginClass :=
  { key := "ip", is_autousable := true, behavior := .ok (.value (.vstr "json")) }

/-! ## Characterization lemmas for one loop iteration -/

theorem runStep_ok_nonbs (kg : Bool) (p : PluginData) (s : LoopState) (r : Resp)
    (h : p.plugin_class.behavior = .ok r) :
    runStep false kg p s =
      (.cont (recordResult (markResp (stepInit p s) true (.resp r))
         p.plugin_class.key (.resp r)), some p.plugin_class.key) := by
  unfold runStep
  rw [h]
  rfl

theorem runStep_ok_bs_win (kg : Bool) (p : PluginData) (s : LoopState)
    (br : BuildResult) (h : p.plugin_class.behavior = .ok (.buildResult br))
    (hf : br.failed = false) :
    runStep true kg p s =
      (.brk (recordResult (markResp (stepInit p s) true (.resp (.buildResult br)))
         p.plugin_class.key (.resp (.buildResult br))), some p.plugin_class.key) := by
  unfold runStep
  rw [h]
  simp [hf]

theorem runStep_ok_bs_failedBR (kg : Bool) (p : PluginData) (s : LoopState)
    (br : BuildResult) (h : p.plugin_class.behavior = .ok (.buildResult br))
    (hf : br.failed = true) :
    runStep true kg p s =
      (.brk (recordResult
          (markResp
            (on_plugin_failed (stepInit p s) p.plugin_class.key br.fail_reason
              (br.fail_reason != ""))
            false (.resp (.buildResult br)))
          p.plugin_class.key (.resp (.buildResult br))), none) := by
  unfold runStep
  rw [h]
  simp [hf]

theorem runStep_cancel (bs kg : Bool) (p : PluginData) (s : LoopState)
    (k m : String) (h : p.plugin_class.behavior = .error (.autoRebuildCanceled k m)) :
    runStep bs kg p s = (.abort (stepInit p s) (.autoRebuildCanceled k m), none) := by
  unfold runStep
  rw [h]

theorem runStep_skip_bs (kg : Bool) (p : PluginData) (s : LoopState)
    (h : p.plugin_class.behavior = .error .inappropriateBuildStep) :
    runStep true kg p s = (.cont (stepInit p s), some p.plugin_class.key) := by
  unfold runStep
  rw [h]
  rfl

theorem runStep_skip_nonbs (kg : Bool) (p : PluginData) (s : LoopState)
    (h : p.plugin_class.behavior = .error .inappropriateBuildStep) :
    runStep false kg p s = (.abort (stepInit p s) .inappropriateBuildStep, none) := by
  unfold runStep
  rw [h]
  rfl

theorem runStep_generic (bs kg : Bool) (p : PluginData) (s : LoopState) (e : Exn)
    (h : p.plugin_class.behavior = .error e) (hc : e.isCancel = false)
    (hi : e.isInappropriate = false) :
    runStep bs kg p s = genericFail bs kg p false e (stepInit p s) := by
  unfold runStep
  rw [h]
  cases e with
  | autoRebuildCanceled k m => simp [Exn.isCancel] at hc
  | inappropriateBuildStep => simp [Exn.isInappropriate] at hi
  | buildCanceled m => rfl
  | pluginFailed m => rfl
  | assertionError => rfl
  | other m => rfl


theorem genericFail_allowed (bs kg : Bool) (p : PluginData) (succ : Bool) (e : Exn)
    (s : LoopState) (ha : p.is_allowed_to_fail = true) (hsb : (succ && bs) = false) :
    genericFail bs kg p succ e s =
      (.cont (recordResult (markResp s succ (.exn e)) p.plugin_class.key (.exn e)),
       some p.plugin_class.key) := by
  unfold genericFail
  rw [ha]
  simp [hsb]

theorem genericFail_forbidden_kg (bs : Bool) (p : PluginData) (succ : Bool) (e : Exn)
    (s : LoopState) (ha : p.is_allowed_to_fail = false) (hsb : (succ && bs) = false) :
    genericFail bs true p succ e s =
      (.cont (recordResult (markResp
          { on_plugin_failed s p.plugin_class.key e.str true with
            failed_msgs := s.failed_msgs ++ [failMsgFor p.plugin_class.key e] }
          succ (.exn e)) p.plugin_class.key (.exn e)),
       some p.plugin_class.key) := by
  unfold genericFail
  rw [ha]
  simp [hsb, on_plugin_failed]

theorem genericFail_fatal (bs : Bool) (p : PluginData) (succ : Bool) (e : Exn)
    (s : LoopState) (ha : p.is_allowed_to_fail = false) :
    genericFail bs false p succ e s =
      (.abort (on_plugin_failed s p.plugin_class.key e.str true)
        (.pluginFailed (failMsgFor p.plugin_class.key e)), none) := by
  unfold genericFail
  rw [ha]
  rfl

/-! ## Loop-level lemmas -/

theorem runLoop_generic (durOk : String → Bool) :
    ∀ (ps : List PluginData) (s : LoopState),
      (∀ p ∈ ps, isGenericB p = true) →
      (runLoop false true durOk ps s).2.2 = none ∧
      (runLoop false true durOk ps s).1.failed_msgs = s.failed_msgs ++ forbiddenOf ps ∧
      (runLoop false true durOk ps s).1.executed =
        s.executed ++ ps.map (fun p => p.plugin_class.key) := by
  intro ps
  induction ps with
  | nil => intro s _; simp [runLoop, forbiddenOf]
  | cons p ps ih =>
    intro s hgen
    have hp : isGenericB p = true := hgen p (by simp)
    have hps : ∀ q ∈ ps, isGenericB q = true := fun q hq => hgen q (by simp [hq])
    cases hb : p.plugin_class.behavior with
    | ok r =>
      rw [runLoop, runStep_ok_nonbs true p s r hb]
      have := ih (recordResult (markResp (stepInit p s) true (.resp r))
        p.plugin_class.key (.resp r)) hps
      rcases hE : runLoop false true durOk ps (recordResult (markResp (stepInit p s) true (.resp r))
        p.plugin_class.key (.resp r)) with ⟨t, ds, e⟩
      rw [hE] at this
      simp only [hE]
      simp [forbiddenOf, hb, recordResult, markResp, stepInit] at this ⊢
      exact this
    | error e =>
      have hc : e.isCancel = false := by
        simp [isGenericB, hb] at hp; exact hp.1
      have hi : e.isInappropriate = false := by
        simp [isGenericB, hb] at hp; exact hp.2
      rw [runLoop, runStep_generic false true p s e hb hc hi]
      cases haf : p.is_allowed_to_fail with
      | true =>
        rw [genericFail_allowed false true p false e (stepInit p s) haf (by simp)]
        have := ih (recordResult (markResp (stepInit p s) false (.exn e))
          p.plugin_class.key (.exn e)) hps
        rcases hE : runLoop false true durOk ps (recordResult (markResp (stepInit p s) false (.exn e))
          p.plugin_class.key (.exn e)) with ⟨t, ds, e'⟩
        rw [hE] at this
        simp only [hE]
        simp [forbiddenOf, hb, hc, hi, haf, recordResult, markResp, stepInit] at this ⊢
        exact this
      | false =>
        rw [genericFail_forbidden_kg false p false e (stepInit p s) haf (by simp)]
        have := ih (recordResult (markResp
            { on_plugin_failed (stepInit p s) p.plugin_class.key e.str true with
              failed_msgs := (stepInit p s).failed_msgs ++ [failMsgFor p.plugin_class.key e] }
            false (.exn e)) p.plugin_class.key (.exn e)) hps
        rcases hE : runLoop false true durOk ps (recordResult (markResp
            { on_plugin_failed (stepInit p s) p.plugin_class.key e.str true with
              failed_msgs := (stepInit p s).failed_msgs ++ [failMsgFor p.plugin_class.key e] }
            false (.exn e)) p.plugin_class.key (.exn e)) with ⟨t, ds, e'⟩
        rw [hE] at this
        simp only [hE]
        simp [forbiddenOf, hb, hc, hi, haf, recordResult, markResp, stepInit,
          on_plugin_failed] at this ⊢
        refine ⟨this.1, ?_, this.2.2⟩
        rw [this.2.1]

theorem runLoop_durOk_indep (bs kg : Bool) (f g : String → Bool) :
    ∀ (ps : List PluginData) (s : LoopState),
      (runLoop bs kg f ps s).1 = (runLoop bs kg g ps s).1 ∧
      (runLoop bs kg f ps s).2.2 = (runLoop bs kg g ps s).2.2 := by
  intro ps
  induction ps with
  | nil => intro s; exact ⟨rfl, rfl⟩
  | cons p ps ih =>
    intro s
    rcases hS : runStep bs kg p s with ⟨sr, d⟩
    cases sr with
    | cont s' =>
      rw [runLoop, runLoop, hS]
      have := ih s'
      rcases hf : runLoop bs kg f ps s' with ⟨t1, ds1, e1⟩
      rcases hg : runLoop bs kg g ps s' with ⟨t2, ds2, e2⟩
      rw [hf, hg] at this
      simp only [hf, hg]
      simpa using this
    | brk s' => rw [runLoop, runLoop, hS]; exact ⟨rfl, rfl⟩
    | abort s' e => rw [runLoop, runLoop, hS]; exact ⟨rfl, rfl⟩

theorem run_durOk_indep (bs kg : Bool) (f g : String → Bool) (ps : List PluginData) :
    (PluginsRunner.run bs kg f ps).result = (PluginsRunner.run bs kg g ps).result ∧
    (PluginsRunner.run bs kg f ps).results = (PluginsRunner.run bs kg g ps).results ∧
    (PluginsRunner.run bs kg f ps).executed = (PluginsRunner.run bs kg g ps).executed ∧
    (PluginsRunner.run bs kg f ps).failed_calls = (PluginsRunner.run bs kg g ps).failed_calls ∧
    (PluginsRunner.run bs kg f ps).wf_plugin_failed = (PluginsRunner.run bs kg g ps).wf_plugin_failed ∧
    (PluginsRunner.run bs kg f ps).wf_errors = (PluginsRunner.run bs kg g ps).wf_errors := by
  have h := runLoop_durOk_indep bs kg f g ps LoopState.init
  rcases hf : runLoop bs kg f ps LoopState.init with ⟨t1, ds1, e1⟩
  rcases hg : runLoop bs kg g ps LoopState.init with ⟨t2, ds2, e2⟩
  rw [hf, hg] at h
  simp only at h
  obtain ⟨ht, he⟩ := h
  subst ht
  subst he
  unfold PluginsRunner.run
  rw [hf, hg]
  cases e1 with
  | some e => simp [mkReport]
  | none =>
    rcases hFin : finishRun bs t1 with ⟨t', r⟩
    simp [mkReport]

theorem genericFail_abort_kind (bs kg : Bool) (p : PluginData) (succ : Bool) (e : Exn)
    (s s' : LoopState) (e' : Exn) (d : Option String)
    (h : genericFail bs kg p succ e s = (.abort s' e', d)) :
    e' = .pluginFailed (failMsgFor p.plugin_class.key e) := by
  simp only [genericFail] at h
  split at h
  · split at h <;> simp at h
  · simp at h
    exact h.1.2.symm

theorem runStep_abort_kind (bs kg : Bool) (p : PluginData) (s s' : LoopState)
    (e' : Exn) (d : Option String) (h : runStep bs kg p s = (.abort s' e', d)) :
    e'.isCancel = true ∨ e' = .inappropriateBuildStep ∨ ∃ m, e' = .pluginFailed m := by
  unfold runStep at h
  cases hb : p.plugin_class.behavior with
  | ok r =>
    rw [hb] at h
    cases bs with
    | false => simp at h
    | true =>
      cases r with
      | value v =>
        simp only [if_pos rfl] at h
        exact Or.inr (Or.inr ⟨_, genericFail_abort_kind _ _ _ _ _ _ _ _ _ h⟩)
      | buildResult br => cases hbf : br.failed <;> simp [hbf] at h
  | error ex =>
    rw [hb] at h
    cases ex with
    | autoRebuildCanceled k m =>
      simp at h
      rcases h with ⟨⟨h1, h2⟩, h3⟩
      subst h2
      exact Or.inl rfl
    | inappropriateBuildStep =>
      cases bs with
      | true => simp at h
      | false =>
        simp at h
        rcases h with ⟨⟨h1, h2⟩, h3⟩
        subst h2
        exact Or.inr (Or.inl rfl)
    | buildCanceled m =>
      simp only at h
      exact Or.inr (Or.inr ⟨_, genericFail_abort_kind _ _ _ _ _ _ _ _ _ h⟩)
    | pluginFailed m =>
      simp only at h
      exact Or.inr (Or.inr ⟨_, genericFail_abort_kind _ _ _ _ _ _ _ _ _ h⟩)
    | assertionError =>
      simp only at h
      exact Or.inr (Or.inr ⟨_, genericFail_abort_kind _ _ _ _ _ _ _ _ _ h⟩)
    | other m =>
      simp only at h
      exact Or.inr (Or.inr ⟨_, genericFail_abort_kind _ _ _ _ _ _ _ _ _ h⟩)

theorem runLoop_abort_kind (bs kg : Bool) (durOk : String → Bool) :
    ∀ (ps : List PluginData) (s : LoopState) (e : Exn),
      (runLoop bs kg durOk ps s).2.2 = some e →
      e.isCancel = true ∨ e = .inappropriateBuildStep ∨ ∃ m, e = .pluginFailed m := by
  intro ps
  induction ps with
  | nil => intro s e h; simp [runLoop] at h
  | cons p ps ih =>
    intro s e h
    rcases hS : runStep bs kg p s with ⟨sr, d⟩
    cases sr with
    | cont s' =>
      rw [runLoop, hS] at h
      rcases hrest : runLoop bs kg durOk ps s' with ⟨t, ds, e2⟩
      simp only [hrest] at h
      subst h
      exact ih s' e (by rw [hrest])
    | brk s' =>
      rw [runLoop, hS] at h
      simp at h
    | abort s' e2 =>
      rw [runLoop, hS] at h
      simp at h
      rcases h with rfl
      exact runStep_abort_kind bs kg p s s' _ d hS

theorem stepInit_of_reset (p : PluginData) (s : LoopState)
    (h1 : s.plugin_successful = false) (h2 : s.plugin_response = none) :
    stepInit p s = { s with executed := s.executed ++ [p.plugin_class.key] } := by
  cases s
  simp only at h1 h2
  subst h1
  subst h2
  rfl

theorem runLoop_skip_pre (kg : Bool) (durOk : String → Bool) :
    ∀ (pre l : List PluginData) (s : LoopState),
      (∀ q ∈ pre, q.plugin_class.behavior = .error .inappropriateBuildStep) →
      s.plugin_successful = false → s.plugin_response = none →
      (runLoop true kg durOk (pre ++ l) s).1 =
        (runLoop true kg durOk l
          { s with executed := s.executed ++ pre.map (fun q => q.plugin_class.key) }).1 ∧
      (runLoop true kg durOk (pre ++ l) s).2.2 =
        (runLoop true kg durOk l
          { s with executed := s.executed ++ pre.map (fun q => q.plugin_class.key) }).2.2 := by
  intro pre
  induction pre with
  | nil =>
    intro l s _ _ _
    constructor <;> simp
  | cons q pre ih =>
    intro l s hpre h1 h2
    have hq : q.plugin_class.behavior = .error .inappropriateBuildStep := hpre q (by simp)
    have hrest : ∀ r ∈ pre, r.plugin_class.behavior = .error .inappropriateBuildStep :=
      fun r hr => hpre r (by simp [hr])
    rw [List.cons_append, runLoop, runStep_skip_bs kg q s hq,
        stepInit_of_reset q s h1 h2]
    have := ih l { s with executed := s.executed ++ [q.plugin_class.key] } hrest
      (by simp [h1]) (by simp [h2])
    rcases hE : runLoop true kg durOk (pre ++ l)
        { s with executed := s.executed ++ [q.plugin_class.key] } with ⟨t, ds, e⟩
    rw [hE] at this
    simp only [hE]
    simpa [List.append_assoc] using this

theorem resolve_missing_required (registry : List (String × PluginClass)) :
    ∀ (pre : List PluginRequest) (bad : PluginRequest) (rest : List PluginRequest),
      (∀ r ∈ pre, (registry.lookup r.name).isSome) →
      registry.lookup bad.name = none → bad.required.getD true = true →
      get_available_plugins registry (pre ++ bad :: rest) =
        .error (bad.name, .pluginFailed (noSuchMsg bad.name)) := by
  intro pre
  induction pre with
  | nil =>
    intro bad rest _ hmiss hreq
    rw [List.nil_append, get_available_plugins, hmiss, if_pos hreq]
  | cons r pre ih =>
    intro bad rest hpre hmiss hreq
    obtain ⟨c, hc⟩ := Option.isSome_iff_exists.mp (hpre r (by simp))
    have hrest : ∀ x ∈ pre, (registry.lookup x.name).isSome :=
      fun x hx => hpre x (by simp [hx])
    rw [List.cons_append, get_available_plugins, hc, ih bad rest hrest hmiss hreq]

theorem resolve_missing_optional (registry : List (String × PluginClass)) :
    ∀ (pre : List PluginRequest) (bad : PluginRequest) (rest : List PluginRequest),
      registry.lookup bad.name = none → bad.required = some false →
      get_available_plugins registry (pre ++ bad :: rest) =
        get_available_plugins registry (pre ++ rest) := by
  intro pre
  induction pre with
  | nil =>
    intro bad rest hmiss hreq
    rw [List.nil_append, List.nil_append, get_available_plugins, hmiss, hreq]
    simp
  | cons r pre ih =>
    intro bad rest hmiss hreq
    rw [List.cons_append, List.cons_append, get_available_plugins, get_available_plugins,
        ih bad rest hmiss hreq]

theorem find_autousable_skip :
    ∀ (l rest : List (String × PluginClass)) (acc : Option String),
      (∀ x ∈ l, x.2.is_autousable = false) →
      find_autousable (l ++ rest) acc = find_autousable rest acc := by
  intro l
  induction l with
  | nil => intro rest acc _; rfl
  | cons x l ih =>
    intro rest acc hl
    have hx : x.2.is_autousable = false := hl x (by simp)
    rcases x with ⟨clsname, cls⟩
    rw [List.cons_append, find_autousable, hx]
    simp only [Bool.false_eq_true, if_false]
    exact ih rest acc (fun y hy => hl y (by simp [hy]))

theorem find_autousable_nil (acc : Option String) : find_autousable [] acc = .ok acc := rfl

theorem translateList_eq_map (ctx : BuilderCtx) :
    ∀ xs : List Value, translateList ctx xs = xs.map (translate_special_values ctx) := by
  intro xs
  induction xs with
  | nil => rfl
  | cons x xs ih => rw [translateList, ih, List.map_cons]

theorem translateEntries_eq_map (ctx : BuilderCtx) :
    ∀ es : List (String × Value),
      translateEntries ctx es = es.map (fun kv => (kv.1, translate_special_values ctx kv.2)) := by
  intro es
  induction es with
  | nil => rfl
  | cons kv es ih =>
    rcases kv with ⟨k, v⟩
    rw [translateEntries, ih, List.map_cons]

theorem translation_lookup_not_token (ctx : BuilderCtx) (s : String)
    (h : s ∉ specialTokens ctx) : (translation_dict ctx).lookup s = none := by
  have hs1 : s ≠ "BUILT_IMAGE_ID" := fun hs => h (by simp [specialTokens, hs])
  have hs2 : s ≠ "BUILD_DOCKERFILE_PATH" := fun hs => h (by simp [specialTokens, hs])
  have hs3 : s ≠ "BUILD_SOURCE_PATH" := fun hs => h (by simp [specialTokens, hs])
  have e1 : (s == "BUILT_IMAGE_ID") = false := beq_eq_false_iff_ne.mpr hs1
  have e2 : (s == "BUILD_DOCKERFILE_PATH") = false := beq_eq_false_iff_ne.mpr hs2
  have e3 : (s == "BUILD_SOURCE_PATH") = false := beq_eq_false_iff_ne.mpr hs3
  cases hb : ctx.base_image with
  | none => simp [translation_dict, hb, List.lookup, e1, e2, e3]
  | some b =>
    have hs4 : s ≠ "BASE_IMAGE" := fun hs => h (by simp [specialTokens, hb, hs])
    have e4 : (s == "BASE_IMAGE") = false := beq_eq_false_iff_ne.mpr hs4
    simp [translation_dict, hb, List.lookup, e1, e2, e3, e4]

/-! ## The claims -/

/-- C7: special-value substitution recurses key-wise through maps and
element-wise through lists; every scalar exactly equal to one of the tokens
`BUILT_IMAGE_ID`, `BUILD_DOCKERFILE_PATH`, `BUILD_SOURCE_PATH`, or
`BASE_IMAGE` (the latter only when a base image is known) is replaced by the
corresponding live build-context value, every other scalar is returned
unchanged; the walk is a pure function of its input — the embedding of the
deep copy the source makes — so the caller's original object is never
mutated. -/
theorem claim_C7 (ctx : BuilderCtx) :
    (∀ es, translate_special_values ctx (.vdict es) =
       .vdict (es.map (fun kv => (kv.1, translate_special_values ctx kv.2)))) ∧
    (∀ xs, translate_special_values ctx (.vlist xs) =
       .vlist (xs.map (translate_special_values ctx))) ∧
    translate_special_values ctx (.vstr "BUILT_IMAGE_ID") = ctx.image_id ∧
    translate_special_values ctx (.vstr "BUILD_DOCKERFILE_PATH") = ctx.dockerfile_path ∧
    translate_special_values ctx (.vstr "BUILD_SOURCE_PATH") = ctx.source_path ∧
    (∀ b, ctx.base_image = some b →
       translate_special_values ctx (.vstr "BASE_IMAGE") = .vstr b) ∧
    (ctx.base_image = none →
       translate_special_values ctx (.vstr "BASE_IMAGE") = .vstr "BASE_IMAGE") ∧
    (∀ s, s ∉ specialTokens ctx → translate_special_values ctx (.vstr s) = .vstr s) ∧
    (∀ n, translate_special_values ctx (.vint n) = .vint n) ∧
    (∀ b, translate_special_values ctx (.vbool b) = .vbool b) ∧
    translate_special_values ctx .vnone = .vnone := by
  refine ⟨?_, ?_, ?_, ?_, ?_, ?_, ?_, ?_, ?_, ?_, ?_⟩
  · intro es
    show Value.vdict (translateEntries ctx es) = _
    rw [translateEntries_eq_map]
  · intro xs
    show Value.vlist (translateList ctx xs) = _
    rw [translateList_eq_map]
  · rfl
  · rfl
  · rfl
  · intro b hb
    show ((translation_dict ctx).lookup "BASE_IMAGE").getD _ = _
    simp [translation_dict, hb, List.lookup]
  · intro hb
    show ((translation_dict ctx).lookup "BASE_IMAGE").getD _ = _
    simp [translation_dict, hb, List.lookup]
  · intro s hs
    show ((translation_dict ctx).lookup s).getD _ = _
    rw [translation_lookup_not_token ctx s hs]
    rfl
  · intro n; rfl
  · intro b; rfl
  · rfl

/-- Witness for C7 at a concrete build context and concrete scalars. -/
theorem claim_C7_witness :
    translate_special_values sampleCtx (.vstr "BASE_IMAGE") = .vstr "base:1" ∧
    translate_special_values sampleCtx (.vstr "not-a-token") = .vstr "not-a-token" := by
  obtain ⟨hd, hl, h1, h2, h3, hbase, hnone, hplain, hint, hbool, hnil⟩ := claim_C7 sampleCtx
  exact ⟨hbase "base:1" rfl, hplain "not-a-token" (by decide)⟩

/-- C5: a request naming a plugin absent from the registry with `required`
true (the default) makes resolution fail immediately with an error naming
the missing plugin, and the whole phase aborts before any plugin executes;
with `required` false the request is logged and omitted and the remaining
requests still resolve (and hence run exactly as if the request were not
there). -/
theorem claim_C5 (registry : List (String × PluginClass)) (pre : List PluginRequest)
    (bad : PluginRequest) (rest : List PluginRequest) (bs kg : Bool)
    (durOk : String → Bool) (hmiss : registry.lookup bad.name = none) :
    (bad.required.getD true = true →
      (∀ r ∈ pre, (registry.lookup r.name).isSome) →
      get_available_plugins registry (pre ++ bad :: rest) =
        .error (bad.name, .pluginFailed (noSuchMsg bad.name)) ∧
      (runner_run registry (pre ++ bad :: rest) bs kg durOk).result =
        .error (.pluginFailed (noSuchMsg bad.name)) ∧
      (runner_run registry (pre ++ bad :: rest) bs kg durOk).executed = []) ∧
    (bad.required = some false →
      get_available_plugins registry (pre ++ bad :: rest) =
        get_available_plugins registry (pre ++ rest)) := by
  constructor
  · intro hreq hpre
    have hres := resolve_missing_required registry pre bad rest hpre hmiss hreq
    refine ⟨hres, ?_, ?_⟩ <;>
      simp [runner_run, hres, mkReport, on_plugin_failed, LoopState.init]
  · intro hreq
    exact resolve_missing_optional registry pre bad rest hmiss hreq

/-- Witness for C5: one resolvable request followed by a missing required
one aborts resolution; the same missing request marked optional is omitted. -/
theorem claim_C5_witness :
    get_available_plugins [("good", sampleOk)]
        ([{ name := "good" }] ++ { name := "missing" } :: []) =
      .error ("missing", .pluginFailed (noSuchMsg "missing")) ∧
    get_available_plugins [("good", sampleOk)]
        ([{ name := "good" }] ++
          { name := "missing", args := [], required := some false,
            is_allowed_to_fail := none } :: []) =
      get_available_plugins [("good", sampleOk)] ([{ name := "good" }] ++ []) := by
  constructor
  · exact ((claim_C5 [("good", sampleOk)] [{ name := "good" }] { name := "missing" } []
      false false (fun _ => true) rfl).1 rfl
      (by intro r hr; simp at hr; subst hr; rfl)).1
  · exact (claim_C5 [("good", sampleOk)] [{ name := "good" }]
      { name := "missing", args := [], required := some false, is_allowed_to_fail := none } []
      false false (fun _ => true) rfl).2 rfl

theorem finishRun_error_kind (bs : Bool) (s s2 : LoopState) (e : Exn)
    (h : finishRun bs s = (s2, .error e)) : ∃ m, e = .pluginFailed m := by
  unfold finishRun at h
  split at h
  · simp at h
    exact ⟨_, h.2.symm⟩
  · split at h
    · simp at h
      exact ⟨_, h.2.symm⟩
    · split at h
      · simp at h
        exact ⟨_, h.2.symm⟩
      · simp at h

/-- C1 counterexample: `BuildCanceledException` is caught by the generic
`except Exception` clause, not re-raised unwrapped: with the default
allowed-to-fail policy the failure is recorded under the plugin's key and
the next plugin still runs; with allowed-to-fail false it is converted into
an ordinary `PluginFailedException`. -/
theorem claim_C1_counterexample :
    (PluginsRunner.run false false (fun _ => true)
      [mkPlugin "a" (.error (.buildCanceled "stop")) true,
       mkPlugin "b" (.ok (.value (.vstr "r"))) true]).result =
      .ok [("a", .exn (.buildCanceled "stop")), ("b", .resp (.value (.vstr "r")))] ∧
    (PluginsRunner.run false false (fun _ => true)
      [mkPlugin "a" (.error (.buildCanceled "stop")) true,
       mkPlugin "b" (.ok (.value (.vstr "r"))) true]).executed = ["a", "b"] ∧
    (PluginsRunner.run false false (fun _ => true)
      [mkPlugin "a" (.error (.buildCanceled "stop")) false]).result =
      .error (.pluginFailed "plugin 'a' raised an exception: stop") :=
  ⟨rfl, rfl, rfl⟩

/-- C1 (amended): a plugin raising the auto-rebuild cancellation signal makes
`run` re-raise it immediately and unwrapped — no further plugin in the phase
is instantiated or run and nothing is recorded for it or the remaining
entries; a build-canceled exception, by contrast, is handled by the generic
failure path: `run` never propagates it unwrapped. -/
theorem claim_C1 :
    (∀ (bs kg : Bool) (durOk : String → Bool) (p : PluginData)
       (rest : List PluginData) (s : LoopState) (k m : String),
       p.plugin_class.behavior = .error (.autoRebuildCanceled k m) →
       runLoop bs kg durOk (p :: rest) s =
         (stepInit p s, [], some (.autoRebuildCanceled k m))) ∧
    (∀ (bs kg : Bool) (durOk : String → Bool) (ps : List PluginData) (m : String),
       (PluginsRunner.run bs kg durOk ps).result ≠ .error (.buildCanceled m)) := by
  constructor
  · intro bs kg durOk p rest s k m hb
    rw [runLoop, runStep_cancel bs kg p s k m hb]
    rfl
  · intro bs kg durOk ps m hcontra
    unfold PluginsRunner.run at hcontra
    rcases hE : runLoop bs kg durOk ps LoopState.init with ⟨s, ds, e⟩
    rw [hE] at hcontra
    cases e with
    | some e2 =>
      simp [mkReport] at hcontra
      subst hcontra
      have := runLoop_abort_kind bs kg durOk ps LoopState.init _ (by rw [hE])
      simp [Exn.isCancel] at this
    | none =>
      have hcontra2 : (match finishRun bs s with
          | (s', r) => mkReport s' ds r).result = .error (.buildCanceled m) := hcontra
      rcases hFin : finishRun bs s with ⟨t, r⟩
      rw [hFin] at hcontra2
      simp [mkReport] at hcontra2
      subst hcontra2
      obtain ⟨m2, hm2⟩ := finishRun_error_kind bs s t _ hFin
      simp at hm2

/-- Witness for C1 at concrete plugins: the auto-rebuild cancellation aborts
the loop unwrapped, and a run never surfaces a bare build-canceled error. -/
theorem claim_C1_witness :
    runLoop false false (fun _ => true)
      [mkPlugin "c" (.error (.autoRebuildCanceled "c" "why")) true] LoopState.init =
      (stepInit (mkPlugin "c" (.error (.autoRebuildCanceled "c" "why")) true) LoopState.init,
       [], some (.autoRebuildCanceled "c" "why")) ∧
    (PluginsRunner.run false false (fun _ => true)
      [mkPlugin "a" (.error (.buildCanceled "stop")) false]).result ≠
      .error (.buildCanceled "stop") := by
  exact ⟨claim_C1.1 false false (fun _ => true) _ [] LoopState.init "c" "why" rfl,
         claim_C1.2 false false (fun _ => true) _ "stop"⟩

/-- C2 counterexample: with an empty build-step configuration the synthesized
request carries no `required` key (so it defaults to required), and an
unresolvable synthesized name raises the unresolvable-required-plugin
configuration error, not the "no viable build step" error. -/
theorem claim_C2_counterexample :
    ((BuildStepPluginsRunner.init_conf (some "mybuild") "docker_api" []).map
        (fun p => (p.name, p.required, p.is_allowed_to_fail)) =
      [("mybuild", none, some false)]) ∧
    (runner_run [] (BuildStepPluginsRunner.init_conf (some "mybuild") "docker_api" [])
        true false (fun _ => true)).result =
      .error (.pluginFailed (noSuchMsg "mybuild")) :=
  ⟨rfl, rfl⟩

/-- C2 (amended): with an empty build-step configuration the runner
synthesizes exactly one request named after the source-declared build method
(falling back to the process-wide default), marked not-allowed-to-fail but
with its `required` flag left unset — hence required by default — so an
unresolvable synthesized name raises the unresolvable-required-plugin
configuration error, aborting before any plugin executes. -/
theorem claim_C2 (sm : Option String) (sys : String) :
    BuildStepPluginsRunner.init_conf sm sys [] =
      [{ name := pyOr sm sys, args := [], required := none,
         is_allowed_to_fail := some false }] ∧
    (∀ (registry : List (String × PluginClass)) (kg : Bool) (durOk : String → Bool),
      registry.lookup (pyOr sm sys) = none →
      (runner_run registry (BuildStepPluginsRunner.init_conf sm sys []) true kg durOk).result =
        .error (.pluginFailed (noSuchMsg (pyOr sm sys))) ∧
      (runner_run registry (BuildStepPluginsRunner.init_conf sm sys [])
          true kg durOk).executed = []) := by
  constructor
  · rfl
  · intro registry kg durOk hmiss
    have hres := resolve_missing_required registry []
      { name := pyOr sm sys, args := [], required := none, is_allowed_to_fail := some false }
      [] (by intro r hr; simp at hr) hmiss rfl
    simp only [List.nil_append] at hres
    have hconf : BuildStepPluginsRunner.init_conf sm sys [] =
        [{ name := pyOr sm sys, args := [], required := none,
           is_allowed_to_fail := some false }] := rfl
    rw [hconf]
    constructor <;> simp [runner_run, hres, mkReport, on_plugin_failed, LoopState.init]

/-- Witness for C2: no source method, default method unresolvable in an empty
registry. -/
theorem claim_C2_witness :
    (runner_run [] (BuildStepPluginsRunner.init_conf none "docker_api" []) true false
      (fun _ => true)).result = .error (.pluginFailed (noSuchMsg "docker_api")) := by
  exact ((claim_C2 none "docker_api").2 [] false (fun _ => true) rfl).1

/-- C9 counterexample: `BuildStepPluginsRunner.__init__` overwrites the
caller's request entries in place — after construction the entry's
`required`/`is_allowed_to_fail` keys have changed. -/
theorem claim_C9_counterexample :
    BuildStepPluginsRunner.init_conf none "docker_api" [{ name := "x" }] ≠
      [{ name := "x" }] := by
  intro h
  simp [BuildStepPluginsRunner.init_conf] at h

/-- C9 (amended): generic resolution reads requests without changing them,
but the phase wrappers do mutate the caller's configuration in place:
`BuildStepPluginsRunner.__init__` overwrites every entry's `required` and
`is_allowed_to_fail` flags (names and argument maps are preserved), and
`InputPluginsRunner.__init__` overwrites the first entry's `name` with the
auto-selected plugin key. -/
theorem claim_C9 :
    (∀ (sm : Option String) (sys : String) (conf : List PluginRequest),
      conf ≠ [] →
      BuildStepPluginsRunner.init_conf sm sys conf =
        conf.map (fun p =>
          { p with required := some false, is_allowed_to_fail := some false })) ∧
    (∀ (registry : List (String × PluginClass)) (req : PluginRequest)
       (rest : List PluginRequest) (k : String),
      req.name = "auto" → find_autousable registry none = .ok (some k) → k ≠ "" →
      InputPluginsRunner.init_conf registry (req :: rest) =
        .ok ({ req with name := k } :: rest, true)) := by
  constructor
  · intro sm sys conf hne
    rw [BuildStepPluginsRunner.init_conf, if_neg (by simpa using hne)]
  · intro registry req rest k hname hfind hk
    rw [InputPluginsRunner.init_conf]
    simp [hname, hfind, optStrTruthy, hk]

/-- Witness for C9: a one-entry build-step configuration has its flags
overwritten; an Input "auto" request has its name overwritten with the
selected key. -/
theorem claim_C9_witness :
    BuildStepPluginsRunner.init_conf none "d" [{ name := "x" }] =
      [{ name := "x", args := [], required := some false,
         is_allowed_to_fail := some false }] ∧
    InputPluginsRunner.init_conf [("ip", autousableClass)] [{ name := "auto" }] =
      .ok ([{ name := "ip" }], true) := by
  constructor
  · exact claim_C9.1 none "d" [{ name := "x" }] (by simp)
  · exact claim_C9.2 [("ip", autousableClass)] { name := "auto" } [] "ip" rfl rfl (by simp)

theorem finishRun_executed (bs : Bool) (s : LoopState) :
    (finishRun bs s).1.executed = s.executed := by
  unfold finishRun
  split
  · rfl
  · split
    · rfl
    · split
      · simp [on_plugin_failed]
      · rfl

/-- C3: in the build-step phase, the first plugin whose `run()` returns a
successful build result stops the loop: its response is recorded under its
key and the outcome is independent of the remaining candidates, which are
never instantiated or run (the executed trace gains only this plugin's key);
a candidate raising the inapplicability signal has no entry recorded and
iteration continues with the remaining candidates. -/
theorem claim_C3 :
    (∀ (kg : Bool) (durOk : String → Bool) (p : PluginData) (rest : List PluginData)
       (s : LoopState) (br : BuildResult),
       p.plugin_class.behavior = .ok (.buildResult br) → br.failed = false →
       runLoop true kg durOk (p :: rest) s =
         (recordResult (markResp (stepInit p s) true (.resp (.buildResult br)))
            p.plugin_class.key (.resp (.buildResult br)),
          durRec durOk (some p.plugin_class.key), none)) ∧
    (∀ (kg : Bool) (durOk : String → Bool) (p : PluginData) (rest : List PluginData)
       (s : LoopState),
       p.plugin_class.behavior = .error .inappropriateBuildStep →
       runLoop true kg durOk (p :: rest) s =
         (match runLoop true kg durOk rest (stepInit p s) with
          | (t, ds, e) => (t, durRec durOk (some p.plugin_class.key) ++ ds, e))) := by
  constructor
  · intro kg durOk p rest s br hb hf
    rw [runLoop, runStep_ok_bs_win kg p s br hb hf]
  · intro kg durOk p rest s hb
    rw [runLoop, runStep_skip_bs kg p s hb]

/-- Witness for C3: a winning first candidate with a second candidate behind
it, and an inapplicable first candidate followed by the winner. -/
theorem claim_C3_witness :
    runLoop true false (fun _ => true)
      [mkPlugin "w" (.ok (.buildResult { failed := false, fail_reason := "" })) false,
       mkPlugin "z" (.ok (.buildResult { failed := false, fail_reason := "" })) false]
      LoopState.init =
      (recordResult (markResp
          (stepInit (mkPlugin "w" (.ok (.buildResult { failed := false, fail_reason := "" })) false)
            LoopState.init)
          true (.resp (.buildResult { failed := false, fail_reason := "" })))
        "w" (.resp (.buildResult { failed := false, fail_reason := "" })), ["w"], none) ∧
    runLoop true false (fun _ => true)
      [mkPlugin "s" (.error .inappropriateBuildStep) false,
       mkPlugin "w" (.ok (.buildResult { failed := false, fail_reason := "" })) false]
      LoopState.init =
      (match runLoop true false (fun _ => true)
          [mkPlugin "w" (.ok (.buildResult { failed := false, fail_reason := "" })) false]
          (stepInit (mkPlugin "s" (.error .inappropriateBuildStep) false) LoopState.init) with
       | (t, ds, e) => (t, ["s"] ++ ds, e)) := by
  exact ⟨claim_C3.1 false (fun _ => true) _
      [mkPlugin "z" (.ok (.buildResult { failed := false, fail_reason := "" })) false]
      LoopState.init { failed := false, fail_reason := "" } rfl rfl,
    claim_C3.2 false (fun _ => true) _
      [mkPlugin "w" (.ok (.buildResult { failed := false, fail_reason := "" })) false]
      LoopState.init rfl⟩

/-- C4: under best-effort mode (`keep_going`) a not-allowed-to-fail failure
does not raise at the point of failure — every plugin in the list still
executes — and after the loop a single fatal error is raised whose content
is exactly the accumulated forbidden-failure messages in encounter order:
the single message when exactly one failure occurred, the combined listing
when more than one, and no error at all when none. -/
theorem claim_C4 (durOk : String → Bool) (ps : List PluginData)
    (hgen : ∀ p ∈ ps, isGenericB p = true) :
    (PluginsRunner.run false true durOk ps).executed =
      ps.map (fun p => p.plugin_class.key) ∧
    (forbiddenOf ps = [] →
      (PluginsRunner.run false true durOk ps).result =
        .ok (PluginsRunner.run false true durOk ps).results) ∧
    (∀ m, forbiddenOf ps = [m] →
      (PluginsRunner.run false true durOk ps).result = .error (.pluginFailed m)) ∧
    (∀ m1 m2 tl, forbiddenOf ps = m1 :: m2 :: tl →
      (PluginsRunner.run false true durOk ps).result =
        .error (.pluginFailed ("Multiple plugins raised an exception: " ++
          pyStrList (forbiddenOf ps)))) := by
  have h := runLoop_generic durOk ps LoopState.init hgen
  rcases hE : runLoop false true durOk ps LoopState.init with ⟨s, ds, e⟩
  rw [hE] at h
  obtain ⟨he, hfm, hex⟩ := h
  simp only at he hfm hex
  subst he
  have hfm' : s.failed_msgs = forbiddenOf ps := by
    simpa [LoopState.init] using hfm
  have hex' : s.executed = ps.map (fun p => p.plugin_class.key) := by
    simpa [LoopState.init] using hex
  unfold PluginsRunner.run
  rw [hE]
  refine ⟨?_, ?_, ?_, ?_⟩
  · show (match finishRun false s with
        | (s', r) => mkReport s' ds r).executed = ps.map (fun p => p.plugin_class.key)
    rcases hFin : finishRun false s with ⟨s2, r⟩
    have hfe := finishRun_executed false s
    rw [hFin] at hfe
    simp only at hfe
    simp [mkReport, hfe, hex']
  · intro hfo
    have hfin : finishRun false s = (s, .ok s.results) := by
      simp [finishRun, hfm', hfo]
    show (match finishRun false s with
        | (s', r) => mkReport s' ds r).result =
      .ok (match finishRun false s with
        | (s', r) => mkReport s' ds r).results
    rw [hfin]
    rfl
  · intro m hfo
    have hfin : finishRun false s = (s, .error (.pluginFailed m)) := by
      simp [finishRun, hfm', hfo]
    show (match finishRun false s with
        | (s', r) => mkReport s' ds r).result = .error (.pluginFailed m)
    rw [hfin]
    rfl
  · intro m1 m2 tl hfo
    have hlen1 : (s.failed_msgs.length == 1) = false := by
      rw [hfm', hfo]
      simp only [List.length_cons, beq_eq_false_iff_ne]
      omega
    have hlen2 : 1 < (forbiddenOf ps).length := by
      rw [hfo]
      simp only [List.length_cons]
      omega
    have hfin : finishRun false s =
        (s, .error (.pluginFailed ("Multiple plugins raised an exception: " ++
          pyStrList (forbiddenOf ps)))) := by
      unfold finishRun
      rw [hlen1]
      simp only [Bool.false_eq_true, if_false, hfm']
      rw [if_pos hlen2]
    show (match finishRun false s with
        | (s', r) => mkReport s' ds r).result =
      .error (.pluginFailed ("Multiple plugins raised an exception: " ++
        pyStrList (forbiddenOf ps)))
    rw [hfin]
    rfl

/-- Witness for C4: two forbidden failures under best-effort mode — both
plugins execute and the aggregate error lists both messages in order. -/
theorem claim_C4_witness :
    (PluginsRunner.run false true (fun _ => true)
      [mkPlugin "a" (.error (.other "e1")) false,
       mkPlugin "b" (.error (.other "e2")) false]).executed = ["a", "b"] ∧
    (PluginsRunner.run false true (fun _ => true)
      [mkPlugin "a" (.error (.other "e1")) false,
       mkPlugin "b" (.error (.other "e2")) false]).result =
      .error (.pluginFailed ("Multiple plugins raised an exception: " ++
        pyStrList ["plugin 'a' raised an exception: e1",
                   "plugin 'b' raised an exception: e2"])) := by
  have h := claim_C4 (fun _ => true)
    [mkPlugin "a" (.error (.other "e1")) false,
     mkPlugin "b" (.error (.other "e2")) false]
    (by intro p hp; simp at hp; rcases hp with rfl | rfl <;> rfl)
  exact ⟨h.1, h.2.2.2 "plugin 'a' raised an exception: e1"
    "plugin 'b' raised an exception: e2" [] rfl⟩

/-- C8 counterexample: a fatal failure (not allowed to fail, no best-effort
mode) aborts the iteration before the duration-recording block, so no
duration is recorded for that attempt even though the save itself would have
succeeded. -/
theorem claim_C8_counterexample :
    (PluginsRunner.run false false (fun _ => true)
      [mkPlugin "a" (.error (.other "boom")) false]).durations = [] ∧
    (PluginsRunner.run false false (fun _ => true)
      [mkPlugin "a" (.error (.other "boom")) false]).result =
      .error (.pluginFailed "plugin 'a' raised an exception: boom") :=
  ⟨rfl, rfl⟩

/-- C8 (amended): the duration-recording block is reached for every attempt
that does not abort the phase at that plugin — success outside the
build-step phase, a recorded (allowed-to-fail or best-effort) failure, and
build-step inapplicability — but not for an attempt that re-raises (a fatal
generic failure, a cancellation, a non-build-step inapplicability) nor for
the build-step failed-result break; and a failure of the duration save
itself is never fatal: the phase outcome, result map and executed trace do
not depend on whether saving durations succeeds. -/
theorem claim_C8 :
    (∀ (kg : Bool) (p : PluginData) (s : LoopState) (r : Resp),
       p.plugin_class.behavior = .ok r →
       (runStep false kg p s).2 = some p.plugin_class.key) ∧
    (∀ (bs kg : Bool) (p : PluginData) (s : LoopState) (e : Exn),
       p.plugin_class.behavior = .error e → e.isCancel = false →
       e.isInappropriate = false → (p.is_allowed_to_fail || kg) = true →
       (runStep bs kg p s).2 = some p.plugin_class.key) ∧
    (∀ (kg : Bool) (p : PluginData) (s : LoopState),
       p.plugin_class.behavior = .error .inappropriateBuildStep →
       (runStep true kg p s).2 = some p.plugin_class.key) ∧
    (∀ (bs : Bool) (p : PluginData) (s : LoopState) (e : Exn),
       p.plugin_class.behavior = .error e → e.isCancel = false →
       e.isInappropriate = false → p.is_allowed_to_fail = false →
       (runStep bs false p s).2 = none) ∧
    (∀ (bs kg : Bool) (p : PluginData) (s : LoopState) (k m : String),
       p.plugin_class.behavior = .error (.autoRebuildCanceled k m) →
       (runStep bs kg p s).2 = none) ∧
    (∀ (kg : Bool) (p : PluginData) (s : LoopState),
       p.plugin_class.behavior = .error .inappropriateBuildStep →
       (runStep false kg p s).2 = none) ∧
    (∀ (kg : Bool) (p : PluginData) (s : LoopState) (br : BuildResult),
       p.plugin_class.behavior = .ok (.buildResult br) → br.failed = true →
       (runStep true kg p s).2 = none) ∧
    (∀ (bs kg : Bool) (f g : String → Bool) (ps : List PluginData),
       (PluginsRunner.run bs kg f ps).result = (PluginsRunner.run bs kg g ps).result ∧
       (PluginsRunner.run bs kg f ps).results = (PluginsRunner.run bs kg g ps).results ∧
       (PluginsRunner.run bs kg f ps).executed = (PluginsRunner.run bs kg g ps).executed) := by
  refine ⟨?_, ?_, ?_, ?_, ?_, ?_, ?_, ?_⟩
  · intro kg p s r hb
    rw [runStep_ok_nonbs kg p s r hb]
  · intro bs kg p s e hb hc hi hok
    rw [runStep_generic bs kg p s e hb hc hi]
    cases haf : p.is_allowed_to_fail with
    | true => rw [genericFail_allowed bs kg p false e (stepInit p s) haf (by simp)]
    | false =>
      have hkg : kg = true := by
        rw [haf] at hok
        simpa using hok
      subst hkg
      rw [genericFail_forbidden_kg bs p false e (stepInit p s) haf (by simp)]
  · intro kg p s hb
    rw [runStep_skip_bs kg p s hb]
  · intro bs p s e hb hc hi haf
    rw [runStep_generic bs false p s e hb hc hi,
        genericFail_fatal bs p false e (stepInit p s) haf]
  · intro bs kg p s k m hb
    rw [runStep_cancel bs kg p s k m hb]
  · intro kg p s hb
    rw [runStep_skip_nonbs kg p s hb]
  · intro kg p s br hb hf
    rw [runStep_ok_bs_failedBR kg p s br hb hf]
  · intro bs kg f g ps
    have h := run_durOk_indep bs kg f g ps
    exact ⟨h.1, h.2.1, h.2.2.1⟩

/-- Witness for C8: a successful attempt reaches the duration block; a fatal
failure, a cancellation, a non-build-step inapplicability and a build-step
failed-result break do not; and a failing duration save leaves the outcome
unchanged. -/
theorem claim_C8_witness :
    (runStep false false (mkPlugin "a" (.ok (.value .vnone)) true) LoopState.init).2 =
      some "a" ∧
    (runStep false false (mkPlugin "x" (.error (.other "boom")) false)
      LoopState.init).2 = none ∧
    (runStep false false (mkPlugin "c" (.error (.autoRebuildCanceled "c" "why")) true)
      LoopState.init).2 = none ∧
    (runStep false false (mkPlugin "i" (.error .inappropriateBuildStep) true)
      LoopState.init).2 = none ∧
    (runStep true false
      (mkPlugin "f" (.ok (.buildResult { failed := true, fail_reason := "bad" })) false)
      LoopState.init).2 = none ∧
    (PluginsRunner.run false false (fun _ => true)
      [mkPlugin "a" (.ok (.value .vnone)) true]).result =
    (PluginsRunner.run false false (fun _ => false)
      [mkPlugin "a" (.ok (.value .vnone)) true]).result := by
  obtain ⟨h1, h2, h3, h4, h5, h6, h7, h8⟩ := claim_C8
  exact ⟨h1 false (mkPlugin "a" (.ok (.value .vnone)) true) LoopState.init _ rfl,
    h4 false (mkPlugin "x" (.error (.other "boom")) false)
      LoopState.init (.other "boom") rfl rfl rfl rfl,
    h5 false false (mkPlugin "c" (.error (.autoRebuildCanceled "c" "why")) true)
      LoopState.init "c" "why" rfl,
    h6 false (mkPlugin "i" (.error .inappropriateBuildStep) true) LoopState.init rfl,
    h7 false (mkPlugin "f" (.ok (.buildResult { failed := true, fail_reason := "bad" })) false)
      LoopState.init { failed := true, fail_reason := "bad" } rfl rfl,
    (h8 false false (fun _ => true) (fun _ => false)
      [mkPlugin "a" (.ok (.value .vnone)) true]).1⟩

theorem finishRun_no_failed (bs : Bool) (s : LoopState) (h1 : s.failed_msgs = [])
    (h2 : respOptTruthy s.plugin_response = true) :
    finishRun bs s = (s, .ok s.results) := by
  unfold finishRun
  rw [h1, h2]
  simp

/-- C10 counterexample: under best-effort mode with an earlier forbidden
failure accumulated, a later candidate returning a failed build result still
stops the loop and is recorded, but the build-step runner then raises the
aggregated fatal error instead of returning the failed result. -/
theorem claim_C10_counterexample :
    (BuildStepPluginsRunner.run_resolved true (fun _ => true)
      [mkPlugin "a" (.error (.other "boom")) false,
       mkPlugin "b" (.ok (.buildResult { failed := true, fail_reason := "bad" })) false]).1 =
      .error (.pluginFailed "plugin 'a' raised an exception: boom") ∧
    (BuildStepPluginsRunner.run_resolved true (fun _ => true)
      [mkPlugin "a" (.error (.other "boom")) false,
       mkPlugin "b" (.ok (.buildResult { failed := true, fail_reason := "bad" })) false]).2.results =
      [("a", .exn (.other "boom")),
       ("b", .resp (.buildResult { failed := true, fail_reason := "bad" }))] :=
  ⟨rfl, rfl⟩

/-- C10 (amended): in the build-step phase a plugin whose `run()` returns a
build result reporting failure stops the loop — the failed result is
recorded under its key, the failure callback fires with the result's fail
reason, and no later candidate is instantiated or run — and, provided no
forbidden failure was accumulated earlier (here: the preceding candidates
were all inapplicable and best-effort mode is off), the build-step runner
returns that failed result to its caller instead of raising. -/
theorem claim_C10 (durOk : String → Bool) (pre : List PluginData) (p : PluginData)
    (post : List PluginData) (br : BuildResult)
    (hpre : ∀ q ∈ pre, q.plugin_class.behavior = .error .inappropriateBuildStep)
    (hb : p.plugin_class.behavior = .ok (.buildResult br)) (hf : br.failed = true) :
    (BuildStepPluginsRunner.run_resolved false durOk (pre ++ p :: post)).1 =
      .ok (.resp (.buildResult br)) ∧
    (BuildStepPluginsRunner.run_resolved false durOk (pre ++ p :: post)).2.results =
      [(p.plugin_class.key, .resp (.buildResult br))] ∧
    (BuildStepPluginsRunner.run_resolved false durOk (pre ++ p :: post)).2.executed =
      pre.map (fun q => q.plugin_class.key) ++ [p.plugin_class.key] ∧
    (BuildStepPluginsRunner.run_resolved false durOk (pre ++ p :: post)).2.failed_calls =
      [(p.plugin_class.key, br.fail_reason)] := by
  have hskip := runLoop_skip_pre false durOk pre (p :: post) LoopState.init hpre rfl rfl
  have hstep : runLoop true false durOk (p :: post)
      { LoopState.init with
        executed := LoopState.init.executed ++ pre.map (fun q => q.plugin_class.key) } =
      (recordResult (markResp (on_plugin_failed (stepInit p
          { LoopState.init with
            executed := LoopState.init.executed ++ pre.map (fun q => q.plugin_class.key) })
          p.plugin_class.key br.fail_reason (br.fail_reason != "")) false
          (.resp (.buildResult br)))
        p.plugin_class.key (.resp (.buildResult br)), [], none) := by
    rw [runLoop, runStep_ok_bs_failedBR false p _ br hb hf]
    rfl
  rcases hE : runLoop true false durOk (pre ++ p :: post) LoopState.init with ⟨s, ds, e⟩
  have h1 := hskip.1
  have h2 := hskip.2
  rw [hE, hstep] at h1 h2
  simp only at h1 h2
  subst h1
  subst h2
  have hfm : (recordResult (markResp (on_plugin_failed (stepInit p
      { LoopState.init with
        executed := LoopState.init.executed ++ pre.map (fun q => q.plugin_class.key) })
      p.plugin_class.key br.fail_reason (br.fail_reason != "")) false
      (.resp (.buildResult br)))
      p.plugin_class.key (.resp (.buildResult br))).failed_msgs = [] := by
    simp [recordResult, markResp, on_plugin_failed, stepInit, LoopState.init]
  have htr : respOptTruthy (recordResult (markResp (on_plugin_failed (stepInit p
      { LoopState.init with
        executed := LoopState.init.executed ++ pre.map (fun q => q.plugin_class.key) })
      p.plugin_class.key br.fail_reason (br.fail_reason != "")) false
      (.resp (.buildResult br)))
      p.plugin_class.key (.resp (.buildResult br))).plugin_response = true := by
    simp [recordResult, markResp, on_plugin_failed, stepInit, LoopState.init,
      respOptTruthy, RecResult.truthy]
  have hfin := finishRun_no_failed true _ hfm htr
  have hrun : PluginsRunner.run true false durOk (pre ++ p :: post) =
      mkReport (recordResult (markResp (on_plugin_failed (stepInit p
        { LoopState.init with
          executed := LoopState.init.executed ++ pre.map (fun q => q.plugin_class.key) })
        p.plugin_class.key br.fail_reason (br.fail_reason != "")) false
        (.resp (.buildResult br)))
        p.plugin_class.key (.resp (.buildResult br))) ds
        (.ok (recordResult (markResp (on_plugin_failed (stepInit p
          { LoopState.init with
            executed := LoopState.init.executed ++ pre.map (fun q => q.plugin_class.key) })
          p.plugin_class.key br.fail_reason (br.fail_reason != "")) false
          (.resp (.buildResult br)))
          p.plugin_class.key (.resp (.buildResult br))).results) := by
    unfold PluginsRunner.run
    rw [hE]
    show (match finishRun true (recordResult (markResp (on_plugin_failed (stepInit p
        { LoopState.init with
          executed := LoopState.init.executed ++ pre.map (fun q => q.plugin_class.key) })
        p.plugin_class.key br.fail_reason (br.fail_reason != "")) false
        (.resp (.buildResult br)))
        p.plugin_class.key (.resp (.buildResult br))) with
      | (s', r) => mkReport s' ds r) = _
    rw [hfin]
  unfold BuildStepPluginsRunner.run_resolved
  rw [hrun]
  simp [mkReport, recordResult, markResp, on_plugin_failed, stepInit, LoopState.init,
    updateAssoc]

/-- Witness for C10: one inapplicable candidate, then a candidate returning a
failed build result; the runner returns the failed result. -/
theorem claim_C10_witness :
    (BuildStepPluginsRunner.run_resolved false (fun _ => true)
      ([mkPlugin "s" (.error .inappropriateBuildStep) false] ++
        mkPlugin "f" (.ok (.buildResult { failed := true, fail_reason := "bad" })) false :: [])).1 =
      .ok (.resp (.buildResult { failed := true, fail_reason := "bad" })) := by
  exact (claim_C10 (fun _ => true) [mkPlugin "s" (.error .inappropriateBuildStep) false]
    (mkPlugin "f" (.ok (.buildResult { failed := true, fail_reason := "bad" })) false) []
    { failed := true, fail_reason := "bad" }
    (by intro q hq; simp at hq; subst hq; rfl) rfl rfl).1

theorem finishRun_nonbs_ok (s : LoopState) (h1 : s.failed_msgs = []) :
    finishRun false s = (s, .ok s.results) := by
  unfold finishRun
  rw [h1]
  simp

/-- C6: for the Input phase with the sole requested name `"auto"`: when
exactly one registered input plugin declares itself autousable, its key is
substituted into the request and, after execution, the returned map holds
that plugin's result under the key `"auto"` instead of its real key; when
zero or more than one plugin declares itself autousable, a fatal
configuration error is raised before any plugin runs (the executed trace is
empty). -/
theorem claim_C6 :
    (∀ (r1 r2 : List (String × PluginClass)) (k : String) (c : PluginClass)
       (req : PluginRequest) (kg : Bool) (durOk : String → Bool) (r : Resp),
       (∀ x ∈ r1, x.2.is_autousable = false) →
       (∀ x ∈ r2, x.2.is_autousable = false) →
       c.is_autousable = true → k ≠ "" → req.name = "auto" →
       (r1 ++ (k, c) :: r2).lookup k = some c → c.key = k →
       c.behavior = .ok r →
       input_phase_run (r1 ++ (k, c) :: r2) [req] kg durOk =
         (.ok [("auto", .resp r)], [k])) ∧
    (∀ (registry : List (String × PluginClass)) (req : PluginRequest)
       (kg : Bool) (durOk : String → Bool),
       (∀ x ∈ registry, x.2.is_autousable = false) → req.name = "auto" →
       input_phase_run registry [req] kg durOk =
         (.error (.pluginFailed
           "No autousable input plugin. Please specify --input explicitly"), [])) ∧
    (∀ (r1 r2 r3 : List (String × PluginClass)) (k1 k2 : String) (c1 c2 : PluginClass)
       (req : PluginRequest) (kg : Bool) (durOk : String → Bool),
       (∀ x ∈ r1, x.2.is_autousable = false) →
       (∀ x ∈ r2, x.2.is_autousable = false) →
       c1.is_autousable = true → c2.is_autousable = true → k1 ≠ "" →
       req.name = "auto" →
       input_phase_run (r1 ++ (k1, c1) :: (r2 ++ (k2, c2) :: r3)) [req] kg durOk =
         (.error (.pluginFailed (multiAutoMsg k1 k2)), [])) := by
  refine ⟨?_, ?_, ?_⟩
  · intro r1 r2 k c req kg durOk r hr1 hr2 hca hk hname hlook hkey hbeh
    have hfind : find_autousable (r1 ++ (k, c) :: r2) none = .ok (some k) := by
      rw [find_autousable_skip r1 ((k, c) :: r2) none hr1, find_autousable]
      simp only [hca, if_true, optStrTruthy]
      simpa using find_autousable_skip r2 [] (some k) hr2
    have hinit : InputPluginsRunner.init_conf (r1 ++ (k, c) :: r2) [req] =
        .ok ([{ req with name := k }], true) := by
      rw [InputPluginsRunner.init_conf]
      simp [hname, hfind, optStrTruthy, hk]
    have hres : get_available_plugins (r1 ++ (k, c) :: r2) [{ req with name := k }] =
        .ok [{ name := k, plugin_class := c, conf := req.args,
               is_allowed_to_fail := req.is_allowed_to_fail.getD c.is_allowed_to_fail }] := by
      simp [get_available_plugins, hlook]
    have hloop : runLoop false kg durOk
        [{ name := k, plugin_class := c, conf := req.args,
           is_allowed_to_fail := req.is_allowed_to_fail.getD c.is_allowed_to_fail }]
        LoopState.init =
        (recordResult (markResp (stepInit
            { name := k, plugin_class := c, conf := req.args,
              is_allowed_to_fail := req.is_allowed_to_fail.getD c.is_allowed_to_fail }
            LoopState.init) true (.resp r)) c.key (.resp r),
         durRec durOk (some c.key), none) := by
      rw [runLoop, runStep_ok_nonbs kg _ LoopState.init r hbeh]
      simp [runLoop]
    have hfm : (recordResult (markResp (stepInit
        { name := k, plugin_class := c, conf := req.args,
          is_allowed_to_fail := req.is_allowed_to_fail.getD c.is_allowed_to_fail }
        LoopState.init) true (.resp r)) c.key (.resp r)).failed_msgs = [] := by
      simp [recordResult, markResp, stepInit, LoopState.init]
    have hfin := finishRun_nonbs_ok _ hfm
    have hrun : PluginsRunner.run false kg durOk
        [{ name := k, plugin_class := c, conf := req.args,
           is_allowed_to_fail := req.is_allowed_to_fail.getD c.is_allowed_to_fail }] =
        mkReport (recordResult (markResp (stepInit
            { name := k, plugin_class := c, conf := req.args,
              is_allowed_to_fail := req.is_allowed_to_fail.getD c.is_allowed_to_fail }
            LoopState.init) true (.resp r)) c.key (.resp r))
          (durRec durOk (some c.key))
          (.ok (recordResult (markResp (stepInit
            { name := k, plugin_class := c, conf := req.args,
              is_allowed_to_fail := req.is_allowed_to_fail.getD c.is_allowed_to_fail }
            LoopState.init) true (.resp r)) c.key (.resp r)).results) := by
      unfold PluginsRunner.run
      rw [hloop]
      show (match finishRun false (recordResult (markResp (stepInit
          { name := k, plugin_class := c, conf := req.args,
            is_allowed_to_fail := req.is_allowed_to_fail.getD c.is_allowed_to_fail }
          LoopState.init) true (.resp r)) c.key (.resp r)) with
        | (s', rr) => mkReport s' (durRec durOk (some c.key)) rr) = _
      rw [hfin]
    unfold input_phase_run
    rw [hinit]
    simp only [hres, hrun]
    simp [mkReport, recordResult, markResp, stepInit, LoopState.init, updateAssoc,
      popAssoc, hkey, durRec]
  · intro registry req kg durOk hnone hname
    have hfind : find_autousable registry none = .ok none := by
      simpa using find_autousable_skip registry [] none hnone
    unfold input_phase_run
    rw [InputPluginsRunner.init_conf]
    simp [hname, hfind, optStrTruthy]
  · intro r1 r2 r3 k1 k2 c1 c2 req kg durOk hr1 hr2 hc1 hc2 hk1 hname
    have hfind : find_autousable (r1 ++ (k1, c1) :: (r2 ++ (k2, c2) :: r3)) none =
        .error (.pluginFailed (multiAutoMsg k1 k2)) := by
      rw [find_autousable_skip r1 ((k1, c1) :: (r2 ++ (k2, c2) :: r3)) none hr1,
          find_autousable]
      simp only [hc1, if_true, optStrTruthy]
      rw [find_autousable_skip r2 ((k2, c2) :: r3) (some k1) hr2, find_autousable]
      simp [hc2, optStrTruthy, hk1]
    unfold input_phase_run
    rw [InputPluginsRunner.init_conf]
    simp [hname, hfind]

/-- Witness for C6: a registry with one non-autousable and one autousable
plugin renames the result to `"auto"`; a registry with none raises. -/
theorem claim_C6_witness :
    input_phase_run
      ([("ip1", { key := "ip1", behavior := .ok (.value (.vstr "j1")) })] ++
        ("ip2", { key := "ip2", is_autousable := true,
                  behavior := .ok (.value (.vstr "j2")) }) :: [])
      [{ name := "auto" }] false (fun _ => true) =
      (.ok [("auto", .resp (.value (.vstr "j2")))], ["ip2"]) ∧
    input_phase_run [("ip1", { key := "ip1", behavior := .ok (.value (.vstr "j1")) })]
      [{ name := "auto" }] false (fun _ => true) =
      (.error (.pluginFailed
        "No autousable input plugin. Please specify --input explicitly"), []) := by
  constructor
  · exact claim_C6.1 [("ip1", { key := "ip1", behavior := .ok (.value (.vstr "j1")) })]
      [] "ip2"
      { key := "ip2", is_autousable := true, behavior := .ok (.value (.vstr "j2")) }
      { name := "auto" } false (fun _ => true) (.value (.vstr "j2"))
      (by intro x hx; simp at hx; subst hx; rfl)
      (by intro x hx; simp at hx)
      rfl (by simp) rfl rfl rfl rfl
  · exact claim_C6.2.1 [("ip1", { key := "ip1", behavior := .ok (.value (.vstr "j1")) })]
      { name := "auto" } false (fun _ => true)
      (by intro x hx; simp at hx; subst hx; rfl) rfl

end AtomicReactor
